import Mathlib

/-
Shallow embedding of `ConfigParser.hpp`: a typed option registry (scalar,
vector-of-scalar, enum, and setter/getter-bound options) together with a
line-oriented key/value parser and subcommand activation.

Modelling conventions:
* C++ stream extraction (`istream >> T`) is modelled by an explicit
  extraction function `List Char → Option (T × List Char)` returning the
  extracted value and the unconsumed rest, `none` when the extraction sets
  `failbit`.  `extractInt` is the instance for `int` (and for an enum's
  underlying integer type): skip whitespace, optional sign, then a
  non-empty digit run (C++ `num_get` with the default `dec` base).  Machine
  integers are modelled as unbounded `Int`; overflow clamping is outside
  the claims considered here.
* Exceptions (`std::runtime_error`) become an `Option ConfigError` result
  component; the thrown message's distinct shapes become the distinct
  constructors of `ConfigError`.  Because the C++ vector `setValue` mutates
  `ref_` before it can throw, every `setValue` returns the state at the
  moment of return/throw together with the error, never just the error.
* Host variables bound by reference (`T& ref_`) are carried as a field of
  the option state; `unordered_map` registries become association lists
  with unique keys (first-match lookup/update).
* Strings are ASCII here, so C++ byte positions (`std::string::find`,
  `substr`) coincide with `List Char` positions.
-/

/-- Error kinds thrown by the source (all as `std::runtime_error`, with the
message shape distinguishing them): failed scalar/enum/element parse,
sequence element-count mismatch, unknown subcommand activation. -/
inductive ConfigError where
  | parseError (msg : String)
  | countMismatch (expectedCount got : Nat)
  | unknownSubcommand (name : String)
  deriving DecidableEq

/-- The characters `std::isspace` accepts in the default locale. -/
def cppIsSpace (c : Char) : Bool :=
  c = ' ' || c = '\t' || c = '\n' || c.toNat = 11 || c.toNat = 12 || c = '\r'

/-- Whether the first character (after whitespace skipping) is a minus sign. -/
def negSign (cs : List Char) : Bool :=
  match cs with
  | '-' :: _ => true
  | _ => false

/-- Drop one leading sign character, as C++ integer extraction does. -/
def afterSign (cs : List Char) : List Char :=
  match cs with
  | '-' :: r => r
  | '+' :: r => r
  | _ => cs

/-- Value of a digit run, most significant first. -/
def digitsVal (ds : List Char) : Nat :=
  ds.foldl (fun a c => 10 * a + (c.toNat - '0'.toNat)) 0

/-- Model of `istringstream >> (int&)`: skip whitespace, optional sign, then
a maximal non-empty digit run; `none` (failbit) when no digit follows.
Returns the value and the unconsumed rest of the input. -/
def extractInt (cs : List Char) : Option (Int × List Char) :=
  let body := afterSign (cs.dropWhile cppIsSpace)
  let ds := body.takeWhile Char.isDigit
  if ds = [] then none
  else
    some (if negSign (cs.dropWhile cppIsSpace) then -(digitsVal ds : Int)
          else (digitsVal ds : Int),
          body.dropWhile Char.isDigit)

/-- State of `Option<T>` (scalar specialisation): the bound host variable
`ref_`, the stored default string `defaultVal_`, and `expectedCount_`
(present in the source but never read by the scalar `setValue`). -/
structure ScalarOption (α : Type) where
  ref : α
  defaultVal : String
  expectedCount : Nat
  deriving DecidableEq

/-- `Option<T>::setValue`: extract one value from `str`; on success write it
through the binding, otherwise throw and leave the binding as it was. -/
def ScalarOption.setValue {α : Type} (ext : List Char → Option (α × List Char))
    (str : String) (o : ScalarOption α) : ScalarOption α × Option ConfigError :=
  match ext str.data with
  | some (v, _) => ({ o with ref := v }, none)
  | none => (o, some (ConfigError.parseError ("Failed to parse value: " ++ str)))

/-- `Option<T>::default_val`: store the string representation of the given
value (the C++ takes any streamable `U` and stores its `ostream` rendering;
here the rendering itself is the argument). -/
def ScalarOption.default_val {α : Type} (s : String) (o : ScalarOption α) :
    ScalarOption α :=
  { o with defaultVal := s }

/-- `Option<T>::expected`: record the required element count. -/
def ScalarOption.expected {α : Type} (n : Nat) (o : ScalarOption α) :
    ScalarOption α :=
  { o with expectedCount := n }

/-- `Option<T>::applyDefault`: `if (!defaultVal_.empty()) setValue(defaultVal_)`. -/
def ScalarOption.applyDefault {α : Type} (ext : List Char → Option (α × List Char))
    (o : ScalarOption α) : ScalarOption α × Option ConfigError :=
  if o.defaultVal = "" then (o, none)
  else ScalarOption.setValue ext o.defaultVal o

/-- State of the enum specialisation `Option<T>` (`is_enum<T>`): the binding
holds the enum's value as its underlying integer (`static_cast` between the
two is value-preserving). -/
abbrev EnumOption := ScalarOption Int

/-- Enum `Option<T>::setValue`: extract the underlying integer and
reinterpret; throw on extraction failure. -/
def EnumOption.setValue (str : String) (o : EnumOption) :
    EnumOption × Option ConfigError :=
  match extractInt str.data with
  | some (v, _) => ({ o with ref := v }, none)
  | none => (o, some (ConfigError.parseError ("Failed to parse enum value: " ++ str)))

/-- Enum `Option<T>::applyDefault`. -/
def EnumOption.applyDefault (o : EnumOption) : EnumOption × Option ConfigError :=
  if o.defaultVal = "" then (o, none)
  else EnumOption.setValue o.defaultVal o

/-- One `std::getline(iss, token, ',')` loop step: accumulate the current
token (in reverse) until a comma or end of input.  A comma consumed at the
very end means the next `getline` hits EOF having read nothing and fails,
so no further (empty) token is produced. -/
def getlineTokensAux (cur : List Char) : List Char → List (List Char)
  | [] => [cur.reverse]
  | c :: cs =>
    if c = ',' then
      match cs with
      | [] => [cur.reverse]
      | _ => cur.reverse :: getlineTokensAux [] cs
    else getlineTokensAux (c :: cur) cs

/-- Tokens produced by `while (std::getline(iss, token, ','))` on the given
input; the empty input yields no token at all (the first `getline` fails). -/
def getlineTokens (cs : List Char) : List (List Char) :=
  match cs with
  | [] => []
  | _ => getlineTokensAux [] cs

/-- State of `Option<std::vector<T>>`: the bound vector, default string and
expected count. -/
structure VecOption (α : Type) where
  ref : List α
  defaultVal : String
  expectedCount : Nat
  deriving DecidableEq

/-- The element loop of `Option<std::vector<T>>::setValue`: starting from
the (cleared) accumulator, extract each token and `push_back` it; throw at
the first token whose extraction fails, keeping the elements pushed so far. -/
def vecFill {α : Type} (ext : List Char → Option (α × List Char)) :
    List (List Char) → List α → List α × Option ConfigError
  | [], acc => (acc, none)
  | t :: ts, acc =>
    match ext t with
    | some (v, _) => vecFill ext ts (acc ++ [v])
    | none =>
      (acc, some (ConfigError.parseError ("Parse error in vector element: " ++ String.mk t)))

/-- `Option<std::vector<T>>::setValue`: `ref_.clear()` (start from `[]`),
split on commas, parse and push each element, then check the expected
count when it is non-zero. -/
def VecOption.setValue {α : Type} (ext : List Char → Option (α × List Char))
    (str : String) (o : VecOption α) : VecOption α × Option ConfigError :=
  match vecFill ext (getlineTokens str.data) [] with
  | (vals, some e) => ({ o with ref := vals }, some e)
  | (vals, none) =>
    if o.expectedCount > 0 ∧ vals.length ≠ o.expectedCount then
      ({ o with ref := vals },
       some (ConfigError.countMismatch o.expectedCount vals.length))
    else ({ o with ref := vals }, none)

/-- `Option<std::vector<T>>::default_val`. -/
def VecOption.default_val {α : Type} (s : String) (o : VecOption α) : VecOption α :=
  { o with defaultVal := s }

/-- `Option<std::vector<T>>::expected`. -/
def VecOption.expected {α : Type} (n : Nat) (o : VecOption α) : VecOption α :=
  { o with expectedCount := n }

/-- `Option<std::vector<T>>::applyDefault`. -/
def VecOption.applyDefault {α : Type} (ext : List Char → Option (α × List Char))
    (o : VecOption α) : VecOption α × Option ConfigError :=
  if o.defaultVal = "" then (o, none)
  else VecOption.setValue ext o.defaultVal o

/-- All-or-nothing parse of a token list: the list of values the
comma-separated tokens denote, `none` if any token fails to extract.  Used
to state what a successful sequence `setValue` leaves in the binding. -/
def parseTokens {α : Type} (ext : List Char → Option (α × List Char)) :
    List (List Char) → Option (List α)
  | [] => some []
  | t :: ts =>
    match ext t with
    | some (v, _) => (parseTokens ext ts).map (fun l => v :: l)
    | none => none

/-- State of `OptionFunc<T>` (for `T = int`): the optional registered
transform and the host-side value last written through the setter
(`hostVal` models the storage the `setter_` closure mutates; every update
of it is one setter invocation). -/
structure OptionFunc where
  transformer : Option (String → Int)
  defaultVal : String
  hostVal : Int

/-- `OptionFunc<T>::setValue` (the transformer-aware definition, source
lines 227-242): with a transform, forward `transformer_(str)` to the
setter; without one, stream-extract into a temporary and forward it
unconditionally — per C++11 `num_get`, a failed integer extraction writes
`0` to the operand, so the setter receives `0`.  No error is ever raised. -/
def OptionFunc.setValue (str : String) (o : OptionFunc) :
    OptionFunc × Option ConfigError :=
  match o.transformer with
  | some f => ({ o with hostVal := f str }, none)
  | none =>
    match extractInt str.data with
    | some (v, _) => ({ o with hostVal := v }, none)
    | none => ({ o with hostVal := 0 }, none)

/-- `OptionFunc<T>::applyDefault`. -/
def OptionFunc.applyDefault (o : OptionFunc) : OptionFunc × Option ConfigError :=
  if o.defaultVal = "" then (o, none)
  else OptionFunc.setValue o.defaultVal o

/-- A type-erased registry entry (`unique_ptr<OptionBase>`), instantiated at
element type `int` for the parser-level claims: scalar, vector and enum
options.  (`OptionFunc` is kept out of the registry model only because its
closure field has no decidable equality; no parser-level claim needs it.) -/
inductive OptState where
  | scalarI (o : ScalarOption Int)
  | vecI (o : VecOption Int)
  | enumI (o : EnumOption)
  deriving DecidableEq

/-- Virtual dispatch `OptionBase::setValue`. -/
def OptState.setValue (value : String) : OptState → OptState × Option ConfigError
  | OptState.scalarI o =>
    match ScalarOption.setValue extractInt value o with
    | (o', e) => (OptState.scalarI o', e)
  | OptState.vecI o =>
    match VecOption.setValue extractInt value o with
    | (o', e) => (OptState.vecI o', e)
  | OptState.enumI o =>
    match EnumOption.setValue value o with
    | (o', e) => (OptState.enumI o', e)

/-- The `options_` map: association list with unique keys. -/
abbrev Registry := List (String × OptState)

/-- Map lookup (`options_.count` / `options_[name]`). -/
def regLookup : Registry → String → Option OptState
  | [], _ => none
  | (k, v) :: rest, name => if k = name then some v else regLookup rest name

/-- In-place update of the entry at a key (`options_[name]->setValue` mutates
the stored option). -/
def regUpdate : Registry → String → OptState → Registry
  | [], _, _ => []
  | (k, v) :: rest, name, st =>
    if k = name then (k, st) :: rest else (k, v) :: regUpdate rest name st

/-- A `ConfigParser` node: its delimiter, its own option registry, its
registered subcommand names, and the non-owning active-subcommand
reference (modelled by the child's name, which identifies the owned child
node in `subcommands_`).  The children's own contents play no role in the
claims settled here. -/
structure ParserNode where
  delimiter : String
  options : Registry
  subcommands : List String
  activeSubcommand : Option String
  deriving DecidableEq

/-- Position of the first occurrence of `needle` starting at index `i`. -/
def findSubstrAux (needle : List Char) (i : Nat) : List Char → Option Nat
  | [] => if needle.isPrefixOf ([] : List Char) then some i else none
  | c :: t =>
    if needle.isPrefixOf (c :: t) then some i else findSubstrAux needle (i + 1) t

/-- `std::string::find`: index of the first occurrence of `needle` in `hay`,
`none` for `npos`. -/
def strFind (hay needle : String) : Option Nat :=
  findSubstrAux needle.data 0 hay.data

/-- The per-line body of `ConfigParser::parse`: skip the line when it is
empty or its first character is `'#'`; find the delimiter, skipping the
line when absent; split into name and value; dispatch `setValue` when the
name is registered, otherwise skip.  (The `std::cout` echo of the name is
an I/O side effect with no bearing on the state.) -/
def parseLine (p : ParserNode) (line : String) : ParserNode × Option ConfigError :=
  if line.data = [] ∨ line.data.head? = some '#' then (p, none)
  else
    match strFind line p.delimiter with
    | none => (p, none)
    | some pos =>
      match regLookup p.options (String.mk (line.data.take pos)) with
      | some st =>
        match OptState.setValue
            (String.mk (line.data.drop (pos + p.delimiter.data.length))) st with
        | (st', e) =>
          ({ p with options := regUpdate p.options (String.mk (line.data.take pos)) st' }, e)
      | none => (p, none)

/-- `ConfigParser::parse` over the sequence of raw text lines (file reading
is the host's concern): process lines in order; an exception thrown by a
`setValue` propagates, aborting the remaining lines. -/
def ParserNode.parse : ParserNode → List String → ParserNode × Option ConfigError
  | p, [] => (p, none)
  | p, line :: rest =>
    match parseLine p line with
    | (p', none) => ParserNode.parse p' rest
    | (p', some e) => (p', some e)

/-- `ConfigParser::parse_subcommand`: activate the named child, throwing on
an unknown name and leaving the node untouched. -/
def ParserNode.parse_subcommand (name : String) (p : ParserNode) :
    ParserNode × Option ConfigError :=
  if name ∈ p.subcommands then
    ({ p with activeSubcommand := some name }, none)
  else (p, some (ConfigError.unknownSubcommand name))

theorem vecFill_ok_iff {α : Type} (ext : List Char → Option (α × List Char)) :
    ∀ (ts : List (List Char)) (acc vals : List α),
      vecFill ext ts acc = (vals, none) ↔
        ∃ l, parseTokens ext ts = some l ∧ vals = acc ++ l := by
  intro ts
  induction ts with
  | nil =>
    intro acc vals
    constructor
    · intro h
      refine ⟨[], rfl, ?_⟩
      simp [vecFill] at h
      simp [h.symm]
    · rintro ⟨l, hl, hv⟩
      simp [parseTokens] at hl
      subst hl
      simp at hv
      simp [vecFill, hv]
  | cons t ts ih =>
    intro acc vals
    cases hext : ext t with
    | none =>
      simp [vecFill, parseTokens, hext]
    | some vr =>
      obtain ⟨v, r⟩ := vr
      rw [show vecFill ext (t :: ts) acc = vecFill ext ts (acc ++ [v]) by
            simp [vecFill, hext]]
      rw [ih (acc ++ [v]) vals]
      constructor
      · rintro ⟨l, hl, hv⟩
        refine ⟨v :: l, ?_, ?_⟩
        · simp [parseTokens, hext, hl]
        · simp [hv]
      · rintro ⟨l, hl, hv⟩
        simp [parseTokens, hext] at hl
        obtain ⟨l', hl', rfl⟩ := hl
        refine ⟨l', hl', ?_⟩
        simp [hv]

theorem parseLine_skip (p : ParserNode) (l : String)
    (h : l = "" ∨ l.data.head? = some '#') : parseLine p l = (p, none) := by
  have hc : l.data = [] ∨ l.data.head? = some '#' := by
    cases h with
    | inl h => subst h; exact Or.inl rfl
    | inr h => exact Or.inr h
  unfold parseLine
  rw [if_pos hc]

/-- Claim C1 counterexample: on the Sequence variant a failing `setValue`
does leave a partial write.  With the binding previously `[9]`, the call
`setValue "1,x"` fails with a parse error, yet afterwards the binding holds
`[1]` (the vector was cleared and the successfully parsed first element
pushed), not the prior value `[9]`. -/
theorem vec_setValue_failure_changes_binding :
    VecOption.setValue extractInt "1,x" (⟨[9], "", 0⟩ : VecOption Int)
      = (⟨[1], "", 0⟩, some (ConfigError.parseError "Parse error in vector element: x"))
    ∧ ([1] : List Int) ≠ [9] := by
  exact ⟨by decide, by decide⟩

/-- Claim C1 (amended): a failing `setValue` leaves a Scalar or Enum binding
unchanged, but on the Sequence variant it first clears the binding and
appends the successfully extracted elements, so after a failing call the
binding holds exactly the elements accumulated up to the failure — a value
independent of the binding held before the call. -/
theorem setValue_failure_binding_behavior :
    (∀ (α : Type) (ext : List Char → Option (α × List Char)) (str : String)
        (o o' : ScalarOption α) (e : ConfigError),
        ScalarOption.setValue ext str o = (o', some e) → o' = o)
    ∧ (∀ (str : String) (o o' : EnumOption) (e : ConfigError),
        EnumOption.setValue str o = (o', some e) → o' = o)
    ∧ (∀ (α : Type) (ext : List Char → Option (α × List Char)) (str : String)
        (o o' : VecOption α) (e : ConfigError),
        VecOption.setValue ext str o = (o', some e) →
          o'.ref = (vecFill ext (getlineTokens str.data) []).1
          ∧ o'.defaultVal = o.defaultVal ∧ o'.expectedCount = o.expectedCount) := by
  refine ⟨?_, ?_, ?_⟩
  · intro α ext str o o' e h
    unfold ScalarOption.setValue at h
    split at h
    · injection h with h1 h2
      exact Option.noConfusion h2
    · injection h with h1 h2
      exact h1.symm
  · intro str o o' e h
    unfold EnumOption.setValue at h
    split at h
    · injection h with h1 h2
      exact Option.noConfusion h2
    · injection h with h1 h2
      exact h1.symm
  · intro α ext str o o' e h
    unfold VecOption.setValue at h
    split at h
    next vals e2 heq =>
      injection h with h1 h2
      subst h1
      rw [heq]
      exact ⟨rfl, rfl, rfl⟩
    next vals heq =>
      split at h
      · injection h with h1 h2
        subst h1
        rw [heq]
        exact ⟨rfl, rfl, rfl⟩
      · injection h with h1 h2
        exact Option.noConfusion h2

/-- Claim C1 witness: concrete instances of the amended statement — a
failing scalar parse at `"abc"` leaves the binding `3`; a failing enum
parse leaves the binding `2`; the failing sequence call `"1,x"` leaves the
cleared-and-refilled prefix `[1]`. -/
theorem setValue_failure_binding_behavior_witness :
    ((⟨3, "", 0⟩ : ScalarOption Int) = ⟨3, "", 0⟩)
    ∧ ((⟨2, "", 0⟩ : EnumOption) = ⟨2, "", 0⟩)
    ∧ ((⟨[1], "", 0⟩ : VecOption Int).ref
        = (vecFill extractInt (getlineTokens ("1,x").data) []).1) := by
  refine ⟨?_, ?_, ?_⟩
  · exact setValue_failure_binding_behavior.1 Int extractInt "abc" ⟨3, "", 0⟩ ⟨3, "", 0⟩
      (ConfigError.parseError "Failed to parse value: abc") (by decide)
  · exact setValue_failure_binding_behavior.2.1 "abc" ⟨2, "", 0⟩ ⟨2, "", 0⟩
      (ConfigError.parseError "Failed to parse enum value: abc") (by decide)
  · exact (setValue_failure_binding_behavior.2.2 Int extractInt "1,x" ⟨[9], "", 0⟩ ⟨[1], "", 0⟩
      (ConfigError.parseError "Parse error in vector element: x") (by decide)).1

/-- Claim C2 counterexample: on an integer Scalar option, `setValue "5abc"`
is not rejected: extraction stops at the valid prefix `5`, the trailing
text `abc` is left unconsumed and ignored, and the binding is set to `5`
with no error. -/
theorem scalar_setValue_accepts_trailing_text :
    ScalarOption.setValue extractInt "5abc" (⟨0, "", 0⟩ : ScalarOption Int)
      = (⟨5, "", 0⟩, none)
    ∧ extractInt ("5abc").data = some (5, ['a', 'b', 'c']) := by
  exact ⟨by decide, by decide⟩

/-- Extraction of an integer fails exactly when no digit follows the
optional whitespace and sign. -/
theorem extractInt_eq_none_iff (cs : List Char) :
    extractInt cs = none ↔
      (afterSign (cs.dropWhile cppIsSpace)).takeWhile Char.isDigit = [] := by
  unfold extractInt
  by_cases h : (afterSign (cs.dropWhile cppIsSpace)).takeWhile Char.isDigit = []
  · simp [h]
  · simp [h]

/-- Claim C2 (amended): Scalar `setValue` fails exactly when stream
extraction fails, i.e. when no digit follows the optional whitespace and
sign — full consumption of `raw` is not required; on failure the binding is
unchanged, and on successful extraction the binding receives the extracted
prefix value with any trailing text ignored. -/
theorem scalar_setValue_success_iff_extract :
    ∀ (str : String) (o : ScalarOption Int),
      ((ScalarOption.setValue extractInt str o).2 = none ↔
        (afterSign (str.data.dropWhile cppIsSpace)).takeWhile Char.isDigit ≠ [])
      ∧ ((ScalarOption.setValue extractInt str o).2 ≠ none →
          (ScalarOption.setValue extractInt str o).1 = o)
      ∧ (∀ (v : Int) (rest : List Char), extractInt str.data = some (v, rest) →
          (ScalarOption.setValue extractInt str o).1 = { o with ref := v }) := by
  intro str o
  have hiff := extractInt_eq_none_iff str.data
  refine ⟨⟨?_, ?_⟩, ?_, ?_⟩
  · intro h2 hds
    have hn : extractInt str.data = none := hiff.mpr hds
    unfold ScalarOption.setValue at h2
    rw [hn] at h2
    simp at h2
  · intro hds
    unfold ScalarOption.setValue
    cases hext : extractInt str.data with
    | none => exact absurd (hiff.mp hext) hds
    | some vr =>
      obtain ⟨v, r⟩ := vr
      rfl
  · intro h2
    unfold ScalarOption.setValue at h2 ⊢
    cases hext : extractInt str.data with
    | none => rfl
    | some vr =>
      obtain ⟨v, r⟩ := vr
      rw [hext] at h2
      simp at h2
  · intro v rest hext
    unfold ScalarOption.setValue
    rw [hext]

/-- Claim C2 witness: the amended statement at concrete inputs — at `"abc"`
the call fails and leaves the binding `3` unchanged; at `"5abc"` extraction
succeeds with value `5` and rest `abc`, and the binding becomes `5`. -/
theorem scalar_setValue_success_iff_extract_witness :
    (ScalarOption.setValue extractInt "abc" (⟨3, "", 0⟩ : ScalarOption Int)).1 = ⟨3, "", 0⟩
    ∧ (ScalarOption.setValue extractInt "5abc" (⟨0, "", 0⟩ : ScalarOption Int)).1 = ⟨5, "", 0⟩ := by
  refine ⟨?_, ?_⟩
  · exact (scalar_setValue_success_iff_extract "abc" ⟨3, "", 0⟩).2.1 (by decide)
  · exact (scalar_setValue_success_iff_extract "5abc" ⟨0, "", 0⟩).2.2 5 ['a', 'b', 'c'] (by decide)

/-- Claim C3: any successful Sequence `setValue` leaves the binding equal to
exactly the list of values parsed from the comma-separated tokens of that
call's argument — a full overwrite independent of the previous contents. -/
theorem vec_setValue_success_replaces :
    ∀ (α : Type) (ext : List Char → Option (α × List Char)) (str : String)
      (o o' : VecOption α),
      VecOption.setValue ext str o = (o', none) →
      parseTokens ext (getlineTokens str.data) = some o'.ref := by
  intro α ext str o o' h
  unfold VecOption.setValue at h
  split at h
  next vals e2 heq =>
    injection h with h1 h2
    exact Option.noConfusion h2
  next vals heq =>
    split at h
    · injection h with h1 h2
      exact Option.noConfusion h2
    · injection h with h1 h2
      subst h1
      obtain ⟨l, hl, hv⟩ := (vecFill_ok_iff ext (getlineTokens str.data) [] vals).1 heq
      simp at hv
      subst hv
      exact hl

/-- Claim C3 witness: `setValue "1,2,3"` from an empty binding yields
`[1,2,3]`, and a subsequent `setValue "4,5"` on that binding fully replaces
it with `[4,5]` — both instances obtained from the theorem with the
concrete successful calls discharged by evaluation. -/
theorem vec_setValue_success_replaces_witness :
    parseTokens extractInt (getlineTokens ("1,2,3").data) = some [1, 2, 3]
    ∧ parseTokens extractInt (getlineTokens ("4,5").data) = some [4, 5] := by
  refine ⟨?_, ?_⟩
  · exact vec_setValue_success_replaces Int extractInt "1,2,3"
      ⟨[], "", 0⟩ ⟨[1, 2, 3], "", 0⟩ (by decide)
  · exact vec_setValue_success_replaces Int extractInt "4,5"
      ⟨[1, 2, 3], "", 0⟩ ⟨[4, 5], "", 0⟩ (by decide)

/-- Claim C4: when every token of the argument parses (yielding `vs`), a
Sequence `setValue` with a non-zero configured count fails with the
count-mismatch error exactly when `vs.length` differs from that count, and
a zero configured count (or a matching length) imposes no constraint and
the call succeeds with the binding replaced by `vs`. -/
theorem vec_setValue_count_check :
    ∀ (α : Type) (ext : List Char → Option (α × List Char)) (str : String)
      (o : VecOption α) (vs : List α),
      parseTokens ext (getlineTokens str.data) = some vs →
      ((o.expectedCount ≠ 0 ∧ vs.length ≠ o.expectedCount →
          VecOption.setValue ext str o
            = ({ o with ref := vs },
               some (ConfigError.countMismatch o.expectedCount vs.length)))
       ∧ (o.expectedCount = 0 ∨ vs.length = o.expectedCount →
          VecOption.setValue ext str o = ({ o with ref := vs }, none))) := by
  intro α ext str o vs hp
  have hf : vecFill ext (getlineTokens str.data) [] = (vs, none) :=
    (vecFill_ok_iff ext (getlineTokens str.data) [] vs).2 ⟨vs, hp, by simp⟩
  constructor
  · intro hc
    unfold VecOption.setValue
    split
    next vals e2 heq =>
      rw [hf] at heq
      injection heq with h1 h2
      exact Option.noConfusion h2
    next vals heq =>
      rw [hf] at heq
      injection heq with h1 h2
      subst h1
      rw [if_pos ⟨Nat.pos_of_ne_zero hc.1, hc.2⟩]
  · intro hc
    unfold VecOption.setValue
    split
    next vals e2 heq =>
      rw [hf] at heq
      injection heq with h1 h2
      exact Option.noConfusion h2
    next vals heq =>
      rw [hf] at heq
      injection heq with h1 h2
      subst h1
      rw [if_neg ?_]
      intro hcontra
      cases hc with
      | inl h0 => exact absurd h0 (Nat.pos_iff_ne_zero.mp hcontra.1)
      | inr hlen => exact hcontra.2 hlen

/-- Claim C4 witness: with `expected 3` configured, `setValue "1,2"` fails
with the count-mismatch error (3 expected, 2 got) and `setValue "1,2,3"`
succeeds; both obtained from the theorem at the concrete inputs. -/
theorem vec_setValue_count_check_witness :
    VecOption.setValue extractInt "1,2" (⟨[0], "", 3⟩ : VecOption Int)
      = (⟨[1, 2], "", 3⟩, some (ConfigError.countMismatch 3 2))
    ∧ VecOption.setValue extractInt "1,2,3" (⟨[0], "", 3⟩ : VecOption Int)
      = (⟨[1, 2, 3], "", 3⟩, none) := by
  refine ⟨?_, ?_⟩
  · exact (vec_setValue_count_check Int extractInt "1,2" ⟨[0], "", 3⟩ [1, 2]
      (by decide)).1 (by decide)
  · exact (vec_setValue_count_check Int extractInt "1,2,3" ⟨[0], "", 3⟩ [1, 2, 3]
      (by decide)).2 (by decide)

/-- Claim C5 counterexample: a default configured with an empty string
representation breaks "applyDefault behaves exactly as setValue(default)".
After `default_val ""` on an integer option bound to `7`, `applyDefault` is
a no-op returning success, while `setValue ""` fails — the two results
differ. -/
theorem applyDefault_empty_default_differs_from_setValue :
    ScalarOption.applyDefault extractInt
        (ScalarOption.default_val "" (⟨7, "", 0⟩ : ScalarOption Int))
      = (⟨7, "", 0⟩, none)
    ∧ ScalarOption.applyDefault extractInt
        (ScalarOption.default_val "" (⟨7, "", 0⟩ : ScalarOption Int))
      ≠ ScalarOption.setValue extractInt ""
          (ScalarOption.default_val "" (⟨7, "", 0⟩ : ScalarOption Int)) := by
  exact ⟨by decide, by decide⟩

/-- Claim C5 (amended): `applyDefault` is a no-op whenever the stored
default string is empty — both when no default was ever configured and when
the configured default's string representation is empty — and when the
stored default `d` is non-empty it behaves exactly as `setValue d`; in
particular with default `"42"` on an integer option it sets the binding to
`42`.  This holds for the Scalar, Sequence and Enum variants. -/
theorem applyDefault_behavior :
    (∀ (α : Type) (ext : List Char → Option (α × List Char)) (o : ScalarOption α),
      (o.defaultVal = "" → ScalarOption.applyDefault ext o = (o, none))
      ∧ (o.defaultVal ≠ "" →
          ScalarOption.applyDefault ext o = ScalarOption.setValue ext o.defaultVal o))
    ∧ (∀ (α : Type) (ext : List Char → Option (α × List Char)) (o : VecOption α),
      (o.defaultVal = "" → VecOption.applyDefault ext o = (o, none))
      ∧ (o.defaultVal ≠ "" →
          VecOption.applyDefault ext o = VecOption.setValue ext o.defaultVal o))
    ∧ (∀ (o : EnumOption),
      (o.defaultVal = "" → EnumOption.applyDefault o = (o, none))
      ∧ (o.defaultVal ≠ "" →
          EnumOption.applyDefault o = EnumOption.setValue o.defaultVal o)) := by
  refine ⟨?_, ?_, ?_⟩
  · intro α ext o
    exact ⟨fun h => by unfold ScalarOption.applyDefault; rw [if_pos h],
           fun h => by unfold ScalarOption.applyDefault; rw [if_neg h]⟩
  · intro α ext o
    exact ⟨fun h => by unfold VecOption.applyDefault; rw [if_pos h],
           fun h => by unfold VecOption.applyDefault; rw [if_neg h]⟩
  · intro o
    exact ⟨fun h => by unfold EnumOption.applyDefault; rw [if_pos h],
           fun h => by unfold EnumOption.applyDefault; rw [if_neg h]⟩

/-- Claim C5 witness: with no default configured `applyDefault` keeps the
binding `7`; with default `"42"` configured it behaves as `setValue "42"`,
which sets the integer binding to `42`. -/
theorem applyDefault_behavior_witness :
    ScalarOption.applyDefault extractInt (⟨7, "", 0⟩ : ScalarOption Int)
      = (⟨7, "", 0⟩, none)
    ∧ ScalarOption.applyDefault extractInt (⟨0, "42", 0⟩ : ScalarOption Int)
      = (⟨42, "42", 0⟩, none) := by
  refine ⟨?_, ?_⟩
  · exact (applyDefault_behavior.1 Int extractInt ⟨7, "", 0⟩).1 (by decide)
  · exact ((applyDefault_behavior.1 Int extractInt ⟨0, "42", 0⟩).2 (by decide)).trans
      (by decide)

/-- Claim C10: configuring a default whose string representation is empty is
indistinguishable from never configuring one — for every option of any
variant, after `default_val ""` the subsequent `applyDefault` succeeds and
leaves the bound variable (and the whole option state) unchanged, so no
configured default can assign an empty value through `applyDefault`. -/
theorem empty_default_applyDefault_noop :
    (∀ (α : Type) (ext : List Char → Option (α × List Char)) (o : ScalarOption α),
      ScalarOption.applyDefault ext (ScalarOption.default_val "" o)
        = (ScalarOption.default_val "" o, none))
    ∧ (∀ (α : Type) (ext : List Char → Option (α × List Char)) (o : VecOption α),
      VecOption.applyDefault ext (VecOption.default_val "" o)
        = (VecOption.default_val "" o, none))
    ∧ (∀ (o : EnumOption),
      EnumOption.applyDefault (ScalarOption.default_val "" o)
        = (ScalarOption.default_val "" o, none)) := by
  refine ⟨?_, ?_, ?_⟩
  · intro α ext o
    unfold ScalarOption.applyDefault ScalarOption.default_val
    rw [if_pos rfl]
  · intro α ext o
    unfold VecOption.applyDefault VecOption.default_val
    rw [if_pos rfl]
  · intro o
    unfold EnumOption.applyDefault ScalarOption.default_val
    rw [if_pos rfl]

/-- Claim C6 counterexample: comment detection looks only at the first
character of the line, not the first non-space character.  The line
`"  #a:5"` has `'#'` as its first non-space character, yet on a parser with
an option registered under the name `"  #a"` it is processed as an ordinary
assignment and sets that option's binding to `5` — removing the line leaves
the binding `0`. -/
theorem space_hash_line_not_ignored :
    (("  #a:5").data.dropWhile cppIsSpace).head? = some '#'
    ∧ (ParserNode.parse ⟨":", [("  #a", OptState.scalarI ⟨0, "", 0⟩)], [], none⟩
        ["  #a:5"]).1.options
      = [("  #a", OptState.scalarI ⟨5, "", 0⟩)]
    ∧ (ParserNode.parse ⟨":", [("  #a", OptState.scalarI ⟨0, "", 0⟩)], [], none⟩
        ([] : List String)).1.options
      = [("  #a", OptState.scalarI ⟨0, "", 0⟩)] := by
  exact ⟨by decide, by decide, by decide⟩

/-- Claim C6 (amended): every blank line and every line whose first
character is `'#'` is entirely ignored — inserting or removing such a line
anywhere in the input never changes the outcome of `parse`; a line with
whitespace before the `'#'` is not treated as a comment and is processed as
an ordinary line. -/
theorem blank_and_hash_lines_ignored :
    ∀ (p : ParserNode) (xs ys : List String) (l : String),
      (l = "" ∨ l.data.head? = some '#') →
      ParserNode.parse p (xs ++ l :: ys) = ParserNode.parse p (xs ++ ys) := by
  intro p xs ys l hl
  induction xs generalizing p with
  | nil =>
    simp only [List.nil_append]
    show ParserNode.parse p (l :: ys) = ParserNode.parse p ys
    conv_lhs => rw [ParserNode.parse]
    rw [parseLine_skip p l hl]
  | cons x xs ih =>
    simp only [List.cons_append]
    show ParserNode.parse p (x :: (xs ++ l :: ys)) = ParserNode.parse p (x :: (xs ++ ys))
    unfold ParserNode.parse
    cases hx : parseLine p x with
    | mk p' e =>
      cases e with
      | none => exact ih p'
      | some err => rfl

/-- Claim C6 witness: inserting the comment line `"# note"` before `"a:5"`
yields the same parse outcome as the input without it. -/
theorem blank_and_hash_lines_ignored_witness :
    ParserNode.parse ⟨":", [("a", OptState.scalarI ⟨0, "", 0⟩)], [], none⟩
        ["# note", "a:5"]
      = ParserNode.parse ⟨":", [("a", OptState.scalarI ⟨0, "", 0⟩)], [], none⟩
        ["a:5"] := by
  exact blank_and_hash_lines_ignored ⟨":", [("a", OptState.scalarI ⟨0, "", 0⟩)], [], none⟩
    [] ["a:5"] "# note" (Or.inr (by decide))

/-- Claim C7: a line in which the configured delimiter does not occur, and a
line whose name part matches no registered option of this node, are both
skipped — `parseLine` returns the node unchanged with no error. -/
theorem no_delim_or_unknown_name_skipped :
    ∀ (p : ParserNode) (line : String),
      (strFind line p.delimiter = none → parseLine p line = (p, none))
      ∧ (∀ (pos : Nat), strFind line p.delimiter = some pos →
          regLookup p.options (String.mk (line.data.take pos)) = none →
          parseLine p line = (p, none)) := by
  intro p line
  constructor
  · intro h
    unfold parseLine
    by_cases hb : line.data = [] ∨ line.data.head? = some '#'
    · rw [if_pos hb]
    · rw [if_neg hb, h]
  · intro pos hpos hlook
    unfold parseLine
    by_cases hb : line.data = [] ∨ line.data.head? = some '#'
    · rw [if_pos hb]
    · rw [if_neg hb, hpos]
      simp only [hlook]

/-- Claim C7 witness: on a node with one option `"a"` and delimiter `":"`,
the line `"plainline"` (no delimiter) and the line `"b:1"` (unknown name)
both leave the node unchanged with no error. -/
theorem no_delim_or_unknown_name_skipped_witness :
    parseLine ⟨":", [("a", OptState.scalarI ⟨0, "", 0⟩)], [], none⟩ "plainline"
      = (⟨":", [("a", OptState.scalarI ⟨0, "", 0⟩)], [], none⟩, none)
    ∧ parseLine ⟨":", [("a", OptState.scalarI ⟨0, "", 0⟩)], [], none⟩ "b:1"
      = (⟨":", [("a", OptState.scalarI ⟨0, "", 0⟩)], [], none⟩, none) := by
  refine ⟨?_, ?_⟩
  · exact (no_delim_or_unknown_name_skipped
      ⟨":", [("a", OptState.scalarI ⟨0, "", 0⟩)], [], none⟩ "plainline").1 (by decide)
  · exact (no_delim_or_unknown_name_skipped
      ⟨":", [("a", OptState.scalarI ⟨0, "", 0⟩)], [], none⟩ "b:1").2 1 (by decide) (by decide)

/-- Claim C8: `parse_subcommand` with an unregistered name fails with the
unknown-subcommand error and returns the node unchanged (in particular any
previously active subcommand stays active); with a registered name it sets
the active-subcommand reference to that child and reports no error. -/
theorem parse_subcommand_activation :
    ∀ (p : ParserNode) (name : String),
      (name ∉ p.subcommands →
        ParserNode.parse_subcommand name p
          = (p, some (ConfigError.unknownSubcommand name)))
      ∧ (name ∈ p.subcommands →
        ParserNode.parse_subcommand name p
          = ({ p with activeSubcommand := some name }, none)) := by
  intro p name
  constructor
  · intro h
    unfold ParserNode.parse_subcommand
    rw [if_neg h]
  · intro h
    unfold ParserNode.parse_subcommand
    rw [if_pos h]

/-- Claim C8 witness: on a node whose only subcommand is `"sub"` with
`"sub"` currently active, activating `"missing"` fails with the
unknown-subcommand error and leaves `"sub"` active; activating `"sub"` on a
node with no active subcommand succeeds and makes it active. -/
theorem parse_subcommand_activation_witness :
    ParserNode.parse_subcommand "missing" ⟨":", [], ["sub"], some "sub"⟩
      = (⟨":", [], ["sub"], some "sub"⟩, some (ConfigError.unknownSubcommand "missing"))
    ∧ ParserNode.parse_subcommand "sub" ⟨":", [], ["sub"], none⟩
      = (⟨":", [], ["sub"], some "sub"⟩, none) := by
  refine ⟨?_, ?_⟩
  · exact (parse_subcommand_activation ⟨":", [], ["sub"], some "sub"⟩ "missing").1 (by decide)
  · exact (parse_subcommand_activation ⟨":", [], ["sub"], none⟩ "sub").2 (by decide)

/-- Claim C9: `OptionFunc::setValue` never reports an error and always
invokes the setter: with a registered transform the setter receives
`transform raw`; without one it receives the stream-extracted temporary —
the extracted value when extraction succeeds, and `0` (the value a failed
C++ integer extraction writes to the temporary, not a value parsed from
`raw`) when it fails. -/
theorem optionFunc_setValue_always_sets :
    ∀ (o : OptionFunc) (str : String),
      ((OptionFunc.setValue str o).2 = none)
      ∧ (∀ (f : String → Int), o.transformer = some f →
          (OptionFunc.setValue str o).1.hostVal = f str)
      ∧ (o.transformer = none → extractInt str.data = none →
          (OptionFunc.setValue str o).1.hostVal = 0)
      ∧ (∀ (v : Int) (rest : List Char), o.transformer = none →
          extractInt str.data = some (v, rest) →
          (OptionFunc.setValue str o).1.hostVal = v) := by
  intro o str
  refine ⟨?_, ?_, ?_, ?_⟩
  · unfold OptionFunc.setValue
    cases o.transformer with
    | some f => rfl
    | none =>
      cases hext : extractInt str.data with
      | some vr => obtain ⟨v, r⟩ := vr; rfl
      | none => rfl
  · intro f hf
    unfold OptionFunc.setValue
    rw [hf]
  · intro ht hext
    unfold OptionFunc.setValue
    rw [ht, hext]
  · intro v rest ht hext
    unfold OptionFunc.setValue
    rw [ht, hext]

/-- Claim C9 witness: without a transform, `setValue "abc"` reports no error
and forwards `0` to the setter (extraction fails on `"abc"`), `setValue
"12"` forwards `12`; with the transform mapping every string to `99`,
`setValue "abc"` forwards `99`. -/
theorem optionFunc_setValue_always_sets_witness :
    (OptionFunc.setValue "abc" ⟨none, "", 7⟩).2 = none
    ∧ (OptionFunc.setValue "abc" ⟨none, "", 7⟩).1.hostVal = 0
    ∧ (OptionFunc.setValue "12" ⟨none, "", 7⟩).1.hostVal = 12
    ∧ (OptionFunc.setValue "abc" ⟨some (fun _ => 99), "", 7⟩).1.hostVal = 99 := by
  refine ⟨?_, ?_, ?_, ?_⟩
  · exact (optionFunc_setValue_always_sets ⟨none, "", 7⟩ "abc").1
  · exact (optionFunc_setValue_always_sets ⟨none, "", 7⟩ "abc").2.2.1 rfl (by decide)
  · exact (optionFunc_setValue_always_sets ⟨none, "", 7⟩ "12").2.2.2 12 [] rfl (by decide)
  · exact (optionFunc_setValue_always_sets ⟨some (fun _ => 99), "", 7⟩ "abc").2.1
      (fun _ => 99) rfl
